import Mathlib

/-!
Shallow embedding of the gateway/proxy application in `src/app.py`
(Drug Risk Prediction Frontend).  The gateway receives HTTP requests,
probes the backend prediction service's health endpoint, forwards
payloads and maps transport failures to HTTP status codes.

The embedding models each Flask request handler as a total Lean
function.  Transport-level nondeterminism (what the network does when
the gateway calls the backend) is an explicit input:

* `ProbeResult`  — outcome of the `GET {BACKEND_URL}/health` probe:
  either an HTTP response with a status code, or a raised
  `requests.exceptions.RequestException` carrying its message.
* `ForwardResult` — outcome of the forwarded backend call: a response
  with status and JSON body, a `Timeout`, a `ConnectionError`, or any
  other exception carrying its `str(e)` text.
* `ReqBody` — the value of `request.json` in the handler: `parseError`
  when reading the body itself raises (absent or unparseable body),
  `parsed j` when it yields the JSON value `j` (a body of JSON `null`
  yields `parsed Json.null`, i.e. Python `None`).

Each handler returns its HTTP response together with the trace of
backend calls it performed (endpoint and the `timeout=` argument used),
so that claims about "without contacting the backend" and about
timeouts/retries are directly statable.
-/

namespace App

/-- JSON values, as produced by Python's `json` layer: objects keep the
key/value list order. -/
inductive Json where
  | null : Json
  | bool : Bool → Json
  | num : Int → Json
  | str : String → Json
  | arr : List Json → Json
  | obj : List (String × Json) → Json
deriving Repr, Inhabited

/-- Field lookup on a JSON object: first pair with the given key. -/
def Json.getField (j : Json) (k : String) : Option Json :=
  match j with
  | .obj kvs => (kvs.find? (fun kv => kv.1 == k)).map (fun kv => kv.2)
  | _ => none

/-- An HTTP response of the gateway: status code and JSON body. -/
structure HttpResponse where
  status : Nat
  body : Json
deriving Repr

/-- One outbound call from the gateway to the backend, with the
`timeout=` value (seconds) passed to `requests`. -/
inductive BackendCall where
  | healthGet : Nat → BackendCall
  | predictPost : Json → Nat → BackendCall
  | medicationsGet : Nat → BackendCall
deriving Repr

/-- `BACKEND_URL = "http://localhost:5001"` (src/app.py line 18). -/
def BACKEND_URL : String := "http://localhost:5001"

/-- `BACKEND_TIMEOUT = 30` (src/app.py line 19). -/
def BACKEND_TIMEOUT : Nat := 30

/-- Outcome of the health probe `requests.get(f"{BACKEND_URL}/health", timeout=10)`:
either an HTTP response (with its status code) or a raised
`requests.exceptions.RequestException` (covering timeouts, connection
errors, etc.) with its message. -/
inductive ProbeResult where
  | response : Nat → ProbeResult
  | exn : String → ProbeResult
deriving Repr

/-- Outcome of a forwarded backend call: an HTTP response with status
and JSON body, a `requests.exceptions.Timeout`, a
`requests.exceptions.ConnectionError`, or any other exception with its
`str(e)` text. -/
inductive ForwardResult where
  | response : Nat → Json → ForwardResult
  | timeout : String → ForwardResult
  | connectionError : String → ForwardResult
  | otherExn : String → ForwardResult
deriving Repr

/-- The parsed request body `request.json` as seen by the handler:
`parseError m` when evaluating `request.json` raises an exception with
message `m` (absent or unparseable body), `parsed j` when it yields the
JSON value `j` (JSON `null` gives `parsed Json.null`). -/
inductive ReqBody where
  | parseError : String → ReqBody
  | parsed : Json → ReqBody
deriving Repr

/-- `check_backend_health` (src/app.py lines 21-28): `GET /health` on
the backend with `timeout=10`; `True` iff the status code is 200; any
`RequestException` (timeout included) is caught and yields `False`. -/
def check_backend_health : ProbeResult → Bool
  | .response s => s == 200
  | .exn _ => false

/-- A JSON error body `{"error": msg}` as built by `jsonify({"error": ...})`. -/
def errorBody (msg : String) : Json :=
  Json.obj [("error", Json.str msg)]

/-- `required_fields` (src/app.py line 196), in source order. -/
def required_fields : List String :=
  ["gender", "age", "medication", "dose", "duration"]

/-- Python's `field in data` for a JSON-decoded `data`: key membership
for a dict, element equality for a list, substring test for a string;
for `None`, booleans and numbers the `in` operator raises a
`TypeError`, modelled as `.error` with the CPython message. -/
def pyContains (field : String) : Json → Except String Bool
  | .obj kvs => .ok (kvs.any (fun kv => kv.1 == field))
  | .arr xs =>
      .ok (xs.any (fun j => match j with
        | .str s => s == field
        | _ => false))
  | .str s => .ok (decide (field.toList <:+: s.toList))
  | .null => .error "argument of type \x27NoneType\x27 is not iterable"
  | .bool _ => .error "argument of type \x27bool\x27 is not iterable"
  | .num _ => .error "argument of type \x27int\x27 is not iterable"

/-- The validation loop of `predict` (src/app.py lines 197-200): walk
`required_fields` in order, return the first field not present in
`data` (or `none` if all are present); a raising membership test
propagates as `.error`. -/
def findMissing : List String → Json → Except String (Option String)
  | [], _ => .ok none
  | f :: fs, data =>
      match pyContains f data with
      | .error m => .error m
      | .ok true => findMissing fs data
      | .ok false => .ok (some f)

/-- The `POST /predict` handler `predict` (src/app.py lines 184-233).
Order of operations mirrors the source: health probe first (503 and no
forwarding on failure); then `data = request.json`; then the
required-field presence loop (400 naming the first missing field, no
forwarding); then the forward `requests.post(f"{BACKEND_URL}/predict",
json=data, timeout=BACKEND_TIMEOUT)` whose outcome is mapped: 200 →
relay body, non-200 → relay body and status, `Timeout` → 504,
`ConnectionError` → 503, other exception → 500 with
`"Backend communication error: " ++ str(e)`.  Exceptions raised before
the forward (from `request.json` or the membership test) reach the
outer `except Exception` and give 500 with `"Prediction failed: " ++
str(e)` (a `TypeError` is not a `ValueError`, so the 400 `ValueError`
branch is not taken). -/
def predict (probe : ProbeResult) (body : ReqBody) (fwd : ForwardResult) :
    HttpResponse × List BackendCall :=
  if check_backend_health probe then
    match body with
    | .parseError m =>
        (⟨500, errorBody ("Prediction failed: " ++ m)⟩, [.healthGet 10])
    | .parsed data =>
        match findMissing required_fields data with
        | .error m =>
            (⟨500, errorBody ("Prediction failed: " ++ m)⟩, [.healthGet 10])
        | .ok (some f) =>
            (⟨400, errorBody ("Missing required field: " ++ f)⟩, [.healthGet 10])
        | .ok none =>
            match fwd with
            | .response s b =>
                if s = 200 then
                  (⟨200, b⟩, [.healthGet 10, .predictPost data BACKEND_TIMEOUT])
                else
                  (⟨s, b⟩, [.healthGet 10, .predictPost data BACKEND_TIMEOUT])
            | .timeout _ =>
                (⟨504, errorBody "Backend API request timed out. Please try again."⟩,
                 [.healthGet 10, .predictPost data BACKEND_TIMEOUT])
            | .connectionError _ =>
                (⟨503, errorBody "Cannot connect to backend API. Please ensure the service is running."⟩,
                 [.healthGet 10, .predictPost data BACKEND_TIMEOUT])
            | .otherExn m =>
                (⟨500, errorBody ("Backend communication error: " ++ m)⟩,
                 [.healthGet 10, .predictPost data BACKEND_TIMEOUT])
  else
    (⟨503, errorBody "Backend API is not available. Please ensure the backend service is running."⟩,
     [.healthGet 10])

/-- The `GET /medications` handler (src/app.py lines 235-246): 503
without forwarding when the health probe fails; otherwise
`requests.get(f"{BACKEND_URL}/medications", timeout=10)` and relay of
body and status; the whole handler sits in a generic `except Exception`
giving 500 with `{"error": str(e)}`. -/
def medications (probe : ProbeResult) (fwd : ForwardResult) :
    HttpResponse × List BackendCall :=
  if check_backend_health probe then
    match fwd with
    | .response s b => (⟨s, b⟩, [.healthGet 10, .medicationsGet 10])
    | .timeout m => (⟨500, errorBody m⟩, [.healthGet 10, .medicationsGet 10])
    | .connectionError m => (⟨500, errorBody m⟩, [.healthGet 10, .medicationsGet 10])
    | .otherExn m => (⟨500, errorBody m⟩, [.healthGet 10, .medicationsGet 10])
  else
    (⟨503, errorBody "Backend API is not available"⟩, [.healthGet 10])

/-- The `GET /health` handler (src/app.py lines 248-265): probes the
backend once and reports `healthy`/`online` or `degraded`/`offline`;
Flask's default status 200 applies.  The `except` branch (status
`unhealthy`, 500) is unreachable because `check_backend_health`
catches its own exceptions, and `jsonify` of this literal dict cannot
raise. -/
def health (probe : ProbeResult) : HttpResponse × List BackendCall :=
  (⟨200, Json.obj
      [("status", Json.str (if check_backend_health probe then "healthy" else "degraded")),
       ("service", Json.str "Drug Risk Prediction Frontend"),
       ("backend_status", Json.str (if check_backend_health probe then "online" else "offline")),
       ("backend_url", Json.str BACKEND_URL)]⟩,
   [.healthGet 10])

/-- The 404 error handler `not_found` (src/app.py lines 267-269). -/
def not_found : HttpResponse :=
  ⟨404, errorBody "Endpoint not found"⟩

/-- The 500 error handler `internal_error` (src/app.py lines 271-274). -/
def internal_error : HttpResponse :=
  ⟨500, errorBody "Internal server error"⟩

/-- Whether a JSON body is an object carrying an `error` string. -/
def hasErrorStr (j : Json) : Bool :=
  match j.getField "error" with
  | some (.str _) => true
  | _ => false

/-- The fixed `timeout=` value the source passes for each backend
endpoint: 10 for the health probe (line 24), `BACKEND_TIMEOUT` for the
forwarded prediction (line 207), 10 for medications (line 242). -/
def timeoutOk : BackendCall → Bool
  | .healthGet t => t == 10
  | .predictPost _ t => t == BACKEND_TIMEOUT
  | .medicationsGet t => t == 10

/-- Which backend endpoint a call targets (used to count retries). -/
def callKind : BackendCall → Nat
  | .healthGet _ => 0
  | .predictPost _ _ => 1
  | .medicationsGet _ => 2

/-- A trace retries nothing: each backend endpoint is called at most
once. -/
def noRetries (t : List BackendCall) : Bool :=
  decide (t.countP (fun c => callKind c == 0) ≤ 1) &&
  decide (t.countP (fun c => callKind c == 1) ≤ 1) &&
  decide (t.countP (fun c => callKind c == 2) ≤ 1)

/-- Test fixture: a request body carrying all five required fields
(the spec's end-to-end example record). -/
def fullBody : Json :=
  Json.obj [("gender", Json.str "Female"), ("age", Json.num 45),
            ("medication", Json.str "Metformin"), ("dose", Json.num 500),
            ("duration", Json.num 30)]

/-- Test fixture: a request body with every required field except `dose`. -/
def bodyMissingDose : Json :=
  Json.obj [("gender", Json.str "Male"), ("age", Json.num 45),
            ("medication", Json.str "Aspirin"), ("duration", Json.num 30)]

/-- Test fixture: all five fields present but with out-of-range and
unknown values (negative age, zero dose, unknown medication); the
gateway's presence check accepts it. -/
def wildBody : Json :=
  Json.obj [("gender", Json.num 3), ("age", Json.num (-5)),
            ("medication", Json.str "NotADrug"), ("dose", Json.num 0),
            ("duration", Json.str "forever")]

/-- Helper: what traces the predict handler can leave — the probe
alone, or the probe followed by exactly one forward of some payload
with `timeout=BACKEND_TIMEOUT`. -/
theorem predict_trace_shape (probe : ProbeResult) (body : ReqBody) (fwd : ForwardResult) :
    (predict probe body fwd).2 = [.healthGet 10] ∨
    ∃ d, (predict probe body fwd).2 = [.healthGet 10, .predictPost d BACKEND_TIMEOUT] := by
  unfold predict
  cases h : check_backend_health probe
  · simp
  · simp only [if_true]
    cases body with
    | parseError m => simp
    | parsed data =>
      cases hf : findMissing required_fields data with
      | error m => simp [hf]
      | ok o =>
        cases o with
        | some f => simp [hf]
        | none =>
          cases fwd with
          | response s b =>
            by_cases hs : s = 200 <;> simp [hf, hs]
          | timeout m => simp [hf]
          | connectionError m => simp [hf]
          | otherExn m => simp [hf]

/-- Helper: what traces the medications handler can leave. -/
theorem medications_trace_shape (probe : ProbeResult) (fwd : ForwardResult) :
    (medications probe fwd).2 = [.healthGet 10] ∨
    (medications probe fwd).2 = [.healthGet 10, .medicationsGet 10] := by
  unfold medications
  cases h : check_backend_health probe
  · simp
  · cases fwd <;> simp

/-- Helper: the body of every predict response is either an error
object the gateway built itself, or the verbatim relay of a backend
response. -/
theorem predict_body_shape (probe : ProbeResult) (body : ReqBody) (fwd : ForwardResult) :
    (∃ m, (predict probe body fwd).1.body = errorBody m) ∨
    ∃ s b, fwd = .response s b ∧ (predict probe body fwd).1 = ⟨s, b⟩ := by
  unfold predict
  cases h : check_backend_health probe
  · simp
  · simp only [if_true]
    cases body with
    | parseError m => simp
    | parsed data =>
      cases hf : findMissing required_fields data with
      | error m => simp [hf]
      | ok o =>
        cases o with
        | some f => simp [hf]
        | none =>
          cases fwd with
          | response s b =>
            refine Or.inr ⟨s, b, rfl, ?_⟩
            by_cases hs : s = 200 <;> simp [hf, hs]
          | timeout m => simp [hf]
          | connectionError m => simp [hf]
          | otherExn m => simp [hf]

/-- Helper: same shape fact for the medications handler. -/
theorem medications_body_shape (probe : ProbeResult) (fwd : ForwardResult) :
    (∃ m, (medications probe fwd).1.body = errorBody m) ∨
    ∃ s b, fwd = .response s b ∧ (medications probe fwd).1 = ⟨s, b⟩ := by
  unfold medications
  cases h : check_backend_health probe
  · simp
  · cases fwd <;> simp

/-- Helper: error bodies built by the gateway always carry an `error`
string. -/
theorem hasErrorStr_errorBody (m : String) : hasErrorStr (errorBody m) = true := rfl

/-- C1: on a POST /predict, the gateway probes the backend health
endpoint first; whenever the probe fails — a non-200 status (the probe
is healthy exactly when the status equals 200) or any transport
exception — the handler answers 503 with the fixed error body and its
backend-call trace is the probe alone, so the backend `/predict`
endpoint is never contacted. -/
theorem predict_probe_failure_503_no_forward (probe : ProbeResult) (body : ReqBody)
    (fwd : ForwardResult) (m : String) (s : Nat)
    (h : check_backend_health probe = false) :
    check_backend_health (.exn m) = false ∧
    check_backend_health (.response s) = (s == 200) ∧
    predict probe body fwd =
      (⟨503, errorBody "Backend API is not available. Please ensure the backend service is running."⟩,
       [.healthGet 10]) := by
  refine ⟨rfl, rfl, ?_⟩
  unfold predict
  simp [h]

/-- Witness for C1 at a concrete timed-out probe. -/
theorem predict_probe_failure_503_no_forward_witness :
    check_backend_health (.exn "health check timed out") = false ∧
    check_backend_health (.response 500) = (500 == 200) ∧
    predict (.exn "health check timed out") (.parsed fullBody) (.response 200 Json.null) =
      (⟨503, errorBody "Backend API is not available. Please ensure the backend service is running."⟩,
       [.healthGet 10]) :=
  predict_probe_failure_503_no_forward (.exn "health check timed out") (.parsed fullBody)
    (.response 200 Json.null) "health check timed out" 500 rfl

/-- C2: on a POST /predict with a healthy probe and all five required
fields present, the forwarded call's transport outcome maps exactly:
`Timeout` → 504, `ConnectionError` → 503, any other exception → 500
with a body whose message is the fixed prefix followed by the
exception text (so it contains the exception text). -/
theorem predict_transport_failure_mapping (probe : ProbeResult) (data : Json)
    (mt mc me : String)
    (h1 : check_backend_health probe = true)
    (h2 : findMissing required_fields data = .ok none) :
    predict probe (.parsed data) (.timeout mt) =
      (⟨504, errorBody "Backend API request timed out. Please try again."⟩,
       [.healthGet 10, .predictPost data BACKEND_TIMEOUT]) ∧
    predict probe (.parsed data) (.connectionError mc) =
      (⟨503, errorBody "Cannot connect to backend API. Please ensure the service is running."⟩,
       [.healthGet 10, .predictPost data BACKEND_TIMEOUT]) ∧
    predict probe (.parsed data) (.otherExn me) =
      (⟨500, errorBody ("Backend communication error: " ++ me)⟩,
       [.healthGet 10, .predictPost data BACKEND_TIMEOUT]) := by
  unfold predict
  simp [h1, h2]

/-- Witness for C2 on the full example body. -/
theorem predict_transport_failure_mapping_witness :
    predict (.response 200) (.parsed fullBody) (.timeout "read timed out") =
      (⟨504, errorBody "Backend API request timed out. Please try again."⟩,
       [.healthGet 10, .predictPost fullBody BACKEND_TIMEOUT]) ∧
    predict (.response 200) (.parsed fullBody) (.connectionError "connection refused") =
      (⟨503, errorBody "Cannot connect to backend API. Please ensure the service is running."⟩,
       [.healthGet 10, .predictPost fullBody BACKEND_TIMEOUT]) ∧
    predict (.response 200) (.parsed fullBody) (.otherExn "chunked encoding error") =
      (⟨500, errorBody ("Backend communication error: " ++ "chunked encoding error")⟩,
       [.healthGet 10, .predictPost fullBody BACKEND_TIMEOUT]) :=
  predict_transport_failure_mapping (.response 200) fullBody
    "read timed out" "connection refused" "chunked encoding error" rfl rfl

/-- C3: on a POST /predict with a healthy probe and a JSON body lacking
at least one required field, the handler answers 400 with error text
`"Missing required field: " ++ f` where `f` is the first missing field
in the source order `gender, age, medication, dose, duration` (the
order of `required_fields`, which `findMissing` walks front to back),
and the trace is the probe alone: nothing is forwarded. -/
theorem predict_missing_field_400 (probe : ProbeResult) (data : Json)
    (fwd : ForwardResult) (f : String)
    (h1 : check_backend_health probe = true)
    (h2 : findMissing required_fields data = .ok (some f)) :
    required_fields = ["gender", "age", "medication", "dose", "duration"] ∧
    predict probe (.parsed data) fwd =
      (⟨400, errorBody ("Missing required field: " ++ f)⟩, [.healthGet 10]) := by
  refine ⟨rfl, ?_⟩
  unfold predict
  simp [h1, h2]

/-- Witness for C3: a body missing only `dose` yields exactly the error
text "Missing required field: dose". -/
theorem predict_missing_field_400_witness :
    predict (.response 200) (.parsed bodyMissingDose) (.response 200 Json.null) =
      (⟨400, errorBody "Missing required field: dose"⟩, [.healthGet 10]) :=
  (predict_missing_field_400 (.response 200) bodyMissingDose
    (.response 200 Json.null) "dose" rfl rfl).2

/-- C4: on a POST /predict with a healthy probe, all required fields
present and a forwarded call that returns an HTTP response, the gateway
relays the backend's body and status code verbatim — the source's
`status == 200` branch and its else branch both produce `(s, b)`. -/
theorem predict_relay_verbatim (probe : ProbeResult) (data b : Json) (s : Nat)
    (h1 : check_backend_health probe = true)
    (h2 : findMissing required_fields data = .ok none) :
    predict probe (.parsed data) (.response s b) =
      (⟨s, b⟩, [.healthGet 10, .predictPost data BACKEND_TIMEOUT]) := by
  unfold predict
  simp [h1, h2]
  by_cases hs : s = 200 <;> simp [hs]

/-- Witness for C4, applied at a 200 and at a non-200 backend status. -/
theorem predict_relay_verbatim_witness :
    predict (.response 200) (.parsed fullBody) (.response 200 (Json.obj [("ok", Json.bool true)])) =
      (⟨200, Json.obj [("ok", Json.bool true)]⟩,
       [.healthGet 10, .predictPost fullBody BACKEND_TIMEOUT]) ∧
    predict (.response 200) (.parsed fullBody) (.response 422 (errorBody "Unknown medication")) =
      (⟨422, errorBody "Unknown medication"⟩,
       [.healthGet 10, .predictPost fullBody BACKEND_TIMEOUT]) :=
  ⟨predict_relay_verbatim (.response 200) fullBody (Json.obj [("ok", Json.bool true)]) 200 rfl rfl,
   predict_relay_verbatim (.response 200) fullBody (errorBody "Unknown medication") 422 rfl rfl⟩

/-- C5: whenever the five required fields are present, the payload the
gateway posts to the backend is the original `data` itself, unchanged,
for every transport outcome — the only gate between parsing and the
forward is the presence check, so no range or medication-membership
constraint is applied. -/
theorem predict_forwards_payload_unchanged (probe : ProbeResult) (data : Json)
    (fwd : ForwardResult)
    (h1 : check_backend_health probe = true)
    (h2 : findMissing required_fields data = .ok none) :
    (predict probe (.parsed data) fwd).2 =
      [.healthGet 10, .predictPost data BACKEND_TIMEOUT] := by
  unfold predict
  simp [h1, h2]
  cases fwd with
  | response s b => by_cases hs : s = 200 <;> simp [hs]
  | timeout m => simp
  | connectionError m => simp
  | otherExn m => simp

/-- Witness for C5 on a body whose values are out of range (negative
age, zero dose) and whose medication is unknown: it is still forwarded
verbatim. -/
theorem predict_forwards_payload_unchanged_witness :
    (predict (.response 200) (.parsed wildBody) (.connectionError "refused")).2 =
      [.healthGet 10, .predictPost wildBody BACKEND_TIMEOUT] :=
  predict_forwards_payload_unchanged (.response 200) wildBody (.connectionError "refused") rfl rfl

/-- Helper: the health handler's response when the probe succeeds. -/
theorem health_eq_of_healthy (probe : ProbeResult) (h : check_backend_health probe = true) :
    health probe =
      (⟨200, Json.obj
          [("status", Json.str "healthy"),
           ("service", Json.str "Drug Risk Prediction Frontend"),
           ("backend_status", Json.str "online"),
           ("backend_url", Json.str BACKEND_URL)]⟩,
       [.healthGet 10]) := by
  unfold health
  simp [h]

/-- Helper: the health handler's response when the probe fails. -/
theorem health_eq_of_unhealthy (probe : ProbeResult) (h : check_backend_health probe = false) :
    health probe =
      (⟨200, Json.obj
          [("status", Json.str "degraded"),
           ("service", Json.str "Drug Risk Prediction Frontend"),
           ("backend_status", Json.str "offline"),
           ("backend_url", Json.str BACKEND_URL)]⟩,
       [.healthGet 10]) := by
  unfold health
  simp [h]

/-- C6: a GET /health always answers 200 with a JSON object whose
`status` field is "healthy" and `backend_status` "online" when the
backend probe succeeds, and "degraded"/"offline" otherwise; the
`status` value always lies in {healthy, degraded, unhealthy} (the
handler's `except` branch, which would report "unhealthy", is
unreachable in the embedding because the probe wrapper catches its own
exceptions). -/
theorem health_status_fields (probe : ProbeResult) :
    (health probe).1.status = 200 ∧
    (check_backend_health probe = true →
      (health probe).1.body.getField "status" = some (.str "healthy") ∧
      (health probe).1.body.getField "backend_status" = some (.str "online")) ∧
    (check_backend_health probe = false →
      (health probe).1.body.getField "status" = some (.str "degraded") ∧
      (health probe).1.body.getField "backend_status" = some (.str "offline")) ∧
    (∃ s, (health probe).1.body.getField "status" = some (.str s) ∧
      (s = "healthy" ∨ s = "degraded" ∨ s = "unhealthy")) := by
  cases h : check_backend_health probe
  · rw [health_eq_of_unhealthy probe h]
    refine ⟨rfl, ?_, fun _ => ⟨rfl, rfl⟩, ⟨"degraded", rfl, Or.inr (Or.inl rfl)⟩⟩
    intro hh
    exact Bool.noConfusion hh
  · rw [health_eq_of_healthy probe h]
    refine ⟨rfl, fun _ => ⟨rfl, rfl⟩, ?_, ⟨"healthy", rfl, Or.inl rfl⟩⟩
    intro hh
    exact Bool.noConfusion hh

/-- Witness for C6 at a healthy and at an unreachable backend. -/
theorem health_status_fields_witness :
    ((health (.response 200)).1.body.getField "status" = some (.str "healthy") ∧
     (health (.response 200)).1.body.getField "backend_status" = some (.str "online")) ∧
    ((health (.exn "connection refused")).1.body.getField "status" = some (.str "degraded") ∧
     (health (.exn "connection refused")).1.body.getField "backend_status" = some (.str "offline")) :=
  ⟨(health_status_fields (.response 200)).2.1 rfl,
   (health_status_fields (.exn "connection refused")).2.2.1 rfl⟩

/-- C7: `BACKEND_TIMEOUT` is 30, every backend call any handler makes
carries the fixed timeout of its endpoint (10 for the health probe,
`BACKEND_TIMEOUT` = 30 for the forwarded prediction, 10 for the
medications forward), and no trace ever calls the same backend
endpoint twice — no call is retried. -/
theorem fixed_timeouts_no_retries (probe : ProbeResult) (body : ReqBody)
    (fwd fwd2 : ForwardResult) :
    BACKEND_TIMEOUT = 30 ∧
    ((predict probe body fwd).2.all timeoutOk = true ∧
      noRetries (predict probe body fwd).2 = true) ∧
    ((medications probe fwd2).2.all timeoutOk = true ∧
      noRetries (medications probe fwd2).2 = true) ∧
    ((health probe).2.all timeoutOk = true ∧
      noRetries (health probe).2 = true) := by
  refine ⟨rfl, ?_, ?_, ⟨rfl, rfl⟩⟩
  · rcases predict_trace_shape probe body fwd with h | ⟨d, h⟩ <;> rw [h] <;> exact ⟨rfl, rfl⟩
  · rcases medications_trace_shape probe fwd2 with h | h <;> rw [h] <;> exact ⟨rfl, rfl⟩

/-- C8: unknown routes get 404 with the uniform body
`{"error": "Endpoint not found"}` (and Flask's 500 handler the generic
body); every response a handler produces either carries an `error`
string the gateway built itself or is the verbatim relay of a backend
response (so every error response the gateway itself produces is a
JSON object with an `error` string); the health handler never errors.
Every handler of the embedding is a total function — each exception
path of the source is mapped to a response, none escapes. -/
theorem error_responses_have_error_string :
    not_found = ⟨404, Json.obj [("error", Json.str "Endpoint not found")]⟩ ∧
    internal_error = ⟨500, Json.obj [("error", Json.str "Internal server error")]⟩ ∧
    (∀ probe body fwd, 400 ≤ (predict probe body fwd).1.status →
      hasErrorStr (predict probe body fwd).1.body = true ∨
      ∃ s b, fwd = .response s b ∧ (predict probe body fwd).1 = ⟨s, b⟩) ∧
    (∀ probe fwd, 400 ≤ (medications probe fwd).1.status →
      hasErrorStr (medications probe fwd).1.body = true ∨
      ∃ s b, fwd = .response s b ∧ (medications probe fwd).1 = ⟨s, b⟩) ∧
    (∀ probe, (health probe).1.status = 200) := by
  refine ⟨rfl, rfl, ?_, ?_, fun probe => rfl⟩
  · intro probe body fwd _
    rcases predict_body_shape probe body fwd with ⟨m, hm⟩ | hrel
    · exact Or.inl (by rw [hm]; exact hasErrorStr_errorBody m)
    · exact Or.inr hrel
  · intro probe fwd _
    rcases medications_body_shape probe fwd with ⟨m, hm⟩ | hrel
    · exact Or.inl (by rw [hm]; exact hasErrorStr_errorBody m)
    · exact Or.inr hrel

/-- Witness for C8 at concrete error responses of both proxied
handlers. -/
theorem error_responses_have_error_string_witness :
    (hasErrorStr (predict (.exn "down") (.parsed fullBody) (.timeout "t")).1.body = true ∨
      ∃ s b, ForwardResult.timeout "t" = .response s b ∧
        (predict (.exn "down") (.parsed fullBody) (.timeout "t")).1 = ⟨s, b⟩) ∧
    (hasErrorStr (medications (.exn "down") (.timeout "t")).1.body = true ∨
      ∃ s b, ForwardResult.timeout "t" = .response s b ∧
        (medications (.exn "down") (.timeout "t")).1 = ⟨s, b⟩) :=
  ⟨error_responses_have_error_string.2.2.1 (.exn "down") (.parsed fullBody) (.timeout "t")
     (by decide),
   error_responses_have_error_string.2.2.2.1 (.exn "down") (.timeout "t") (by decide)⟩

/-- C9: a GET /medications probes the backend health endpoint first;
on a failed probe it answers 503 with an error body and its trace is
the probe alone (the backend `/medications` endpoint is not
contacted); on a successful probe it forwards and, when the forward
returns a response, relays the backend's body and status verbatim. -/
theorem medications_probe_gates_forward (probe : ProbeResult) (fwd : ForwardResult)
    (s : Nat) (b : Json) :
    (check_backend_health probe = false →
      medications probe fwd =
        (⟨503, errorBody "Backend API is not available"⟩, [.healthGet 10])) ∧
    (check_backend_health probe = true →
      medications probe (.response s b) =
        (⟨s, b⟩, [.healthGet 10, .medicationsGet 10])) := by
  constructor <;> intro h <;> unfold medications <;> simp [h]

/-- Witness for C9 at a failed probe and at a successful relay. -/
theorem medications_probe_gates_forward_witness :
    medications (.response 503) (.response 200 Json.null) =
      (⟨503, errorBody "Backend API is not available"⟩, [.healthGet 10]) ∧
    medications (.response 200) (.response 200 (Json.obj [("count", Json.num 5)])) =
      (⟨200, Json.obj [("count", Json.num 5)]⟩, [.healthGet 10, .medicationsGet 10]) :=
  ⟨(medications_probe_gates_forward (.response 503) (.response 200 Json.null) 200 Json.null).1 rfl,
   (medications_probe_gates_forward (.response 200) (.response 200 (Json.obj [("count", Json.num 5)]))
      200 (Json.obj [("count", Json.num 5)])).2 rfl⟩

/-- C10: with a healthy probe, a request whose body cannot be read
(`request.json` raises) or whose body is JSON null (so the handler's
`data` is Python `None` and the `in` test raises a `TypeError`, which
is not a `ValueError`) is answered 500 with a message beginning
"Prediction failed:", not a 400 validation error, and nothing is
forwarded. -/
theorem predict_nonobject_body_500 (probe : ProbeResult) (fwd : ForwardResult) (m : String)
    (h : check_backend_health probe = true) :
    predict probe (.parseError m) fwd =
      (⟨500, errorBody ("Prediction failed: " ++ m)⟩, [.healthGet 10]) ∧
    predict probe (.parsed Json.null) fwd =
      (⟨500, errorBody ("Prediction failed: " ++ "argument of type \x27NoneType\x27 is not iterable")⟩,
       [.healthGet 10]) := by
  constructor
  · unfold predict
    simp [h]
  · unfold predict
    rw [h]
    rfl

/-- Witness for C10 at a concrete unreadable body and at a null body. -/
theorem predict_nonobject_body_500_witness :
    predict (.response 200) (.parseError "400 Bad Request: Failed to decode JSON object") (.timeout "t") =
      (⟨500, errorBody ("Prediction failed: " ++ "400 Bad Request: Failed to decode JSON object")⟩,
       [.healthGet 10]) ∧
    predict (.response 200) (.parsed Json.null) (.timeout "t") =
      (⟨500, errorBody ("Prediction failed: " ++ "argument of type \x27NoneType\x27 is not iterable")⟩,
       [.healthGet 10]) :=
  predict_nonobject_body_500 (.response 200) (.timeout "t")
    "400 Bad Request: Failed to decode JSON object" rfl

end App
